import Mathlib

/-!
Shallow embedding of the node-todo-api service (src/server/server.js) and
verification of the frozen claims about it.

The route layer in `src/server/server.js` is embedded directly.  The mongoose
models (`models/todo`, `models/user`) and the `authenticate` middleware are
required by `server.js` but are not part of `src/`; where a claim depends on
them they are modelled from the specification, as marked on each definition.

Conventions of the embedding:
  - a JSON value is `JVal`, a JSON object body is an association list `JObj`;
  - the document store is a list of documents; generated identifiers are
    passed in explicitly (`newId`), and the current time as `now`;
  - each route handler is a pure function from its inputs to a
    `HandlerResult`: the list of response sends it attempts (in order), the
    store operations it issues, and the resulting store.  Express commits the
    first send and raises on any later one, so the observable HTTP response
    is the head of `sends` (`effectiveSend`);
  - a rejected store promise (connection failure etc.) is modelled by the
    `storeFail` flag, which routes the handler into its `.catch` branch.
-/

namespace TodoApi

/-- A primitive JSON value, as found in a request body field. -/
inductive JVal where
  | jnull
  | jbool (b : Bool)
  | jnum (n : Int)
  | jstr (s : String)
  deriving Repr, DecidableEq

/-- A JSON object: an association list of fields. -/
abbrev JObj := List (String × JVal)

/-- First value bound to key `k` in object `o` (JS property lookup). -/
def jlookup (o : JObj) (k : String) : Option JVal :=
  match o.find? (fun p => p.1 == k) with
  | some p => some p.2
  | none => none

/-- `_.pick(o, ks)`: the sub-object of `o` on the keys `ks` that are present. -/
def lodashPick (o : JObj) (ks : List String) : JObj :=
  ks.filterMap (fun k => (jlookup o k).map (fun v => (k, v)))

/-- Whether a character is a hexadecimal digit. -/
def isHexChar (c : Char) : Bool :=
  c.isDigit || ('a' ≤ c && c ≤ 'f') || ('A' ≤ c && c ≤ 'F')

/-- `ObjectId.isValid` from the mongodb driver: a 12-character string, or a
24-character hexadecimal string. -/
def objectIdIsValid (id : String) : Bool :=
  id.length == 12 || (id.length == 24 && id.data.all isHexChar)

/-- A stored todo document: `{_id, text, completed, completedAt}`. -/
structure Todo where
  id : String
  text : String
  completed : Bool
  completedAt : Option Int
  deriving Repr, DecidableEq

/-- The todo collection held by the document store. -/
abbrev TodoStore := List Todo

/-- Projection of a user record serialized into a response body.  Modelled
from the spec: user creation/login responses carry the user record with the
`password` field omitted, and the issued token travels only in the `x-auth`
header, so the serialized view is the id and email alone. -/
structure UserView where
  id : String
  email : String
  deriving Repr, DecidableEq

/-- The JSON body of a response send, by shape. -/
inductive ResBody where
  | empty
  | errorMsg (msg : String)
  | todoOne (t : Option Todo)
  | todoList (ts : List Todo)
  | todoDirect (t : Todo)
  | userBody (u : UserView)
  deriving Repr, DecidableEq

/-- One attempted response send: status code, headers set, body. -/
structure Response where
  status : Nat
  headers : List (String × String)
  body : ResBody
  deriving Repr, DecidableEq

/-- A store operation issued by a handler. -/
inductive StoreOp where
  | opFind
  | opFindById (id : String)
  | opFindByIdAndRemove (id : String)
  | opFindByIdAndUpdate (id : String)
  | opSave
  deriving Repr, DecidableEq

/-- Result of running a todo route handler: the sends it attempts in order,
the store operations it issues, and the store it leaves behind. -/
structure HandlerResult where
  sends : List Response
  ops : List StoreOp
  store : TodoStore
  deriving DecidableEq

/-- The response actually committed on the wire: Express writes the first
send and errors on any subsequent one. -/
def effectiveSend (r : HandlerResult) : Option Response :=
  r.sends.head?

/-- Whitespace trim on both ends (JS `String.prototype.trim`, as mongoose's
`trim: true` applies it). -/
def jsTrim (s : String) : String :=
  ⟨((s.data.dropWhile Char.isWhitespace).reverse.dropWhile Char.isWhitespace).reverse⟩

/-- ASCII lower-casing of one character. -/
def charLower (c : Char) : Char :=
  if 'A' ≤ c && c ≤ 'Z' then Char.ofNat (c.toNat + 32) else c

/-- ASCII lower-casing (the email case-normalization of the login lookup). -/
def jsToLower (s : String) : String := ⟨s.data.map charLower⟩

/-- Modelled from the spec: saving a new `Todo` document (`models/todo.js` is
not in `src/`).  Per the data model, `text` is a required non-empty string and
is trimmed; `completed` defaults to `false` and `completedAt` to null; the
save fails with a ValidationError when the trimmed text is missing or empty,
leaving the collection unchanged. -/
def todoModelSave (text : Option String) (newId : String) (store : TodoStore) :
    Except String (Todo × TodoStore) :=
  match text with
  | none => .error "Todo validation failed: text is required"
  | some s =>
    let s := jsTrim s
    if s.data.isEmpty then .error "Todo validation failed: text is required"
    else
      let t : Todo := ⟨newId, s, false, none⟩
      .ok (t, store ++ [t])

/-- The `text` string a request body supplies, if any (`req.body.text`). -/
def textOf (b : JObj) : Option String :=
  match jlookup b "text" with
  | some (JVal.jstr s) => some s
  | _ => none

/-- `app.post('/todos')` (server.js:28-43): builds a `Todo` from `req.body.text`
alone, saves it, answers 200 with the created document or 400 with the
validation error. -/
def postTodos (store : TodoStore) (reqBody : JObj) (newId : String) : HandlerResult :=
  match todoModelSave (textOf reqBody) newId store with
  | .ok (t, store2) =>
    { sends := [⟨200, [], ResBody.todoDirect t⟩], ops := [StoreOp.opSave], store := store2 }
  | .error e =>
    { sends := [⟨400, [], ResBody.errorMsg e⟩], ops := [StoreOp.opSave], store := store }

/-- `app.get('/todos')` (server.js:45-55): 200 with `{todos}` on success, 400
when the store query rejects. -/
def getTodos (store : TodoStore) (storeFail : Bool) : HandlerResult :=
  if storeFail then
    { sends := [⟨400, [], ResBody.empty⟩], ops := [StoreOp.opFind], store := store }
  else
    { sends := [⟨200, [], ResBody.todoList store⟩], ops := [StoreOp.opFind], store := store }

/-- `app.get('/todos/:id')` (server.js:57-79): 400 with an error message for an
invalid id before any store access; otherwise `findById`.  In the not-found
branch the code sends 404 and, lacking a `return`, falls through and attempts a
second send of `{todo: null}` with 200; a rejected store promise reaches the
`.catch` branch, which sends 404. -/
def getTodoById (store : TodoStore) (id : String) (storeFail : Bool) : HandlerResult :=
  if !objectIdIsValid id then
    { sends := [⟨400, [], ResBody.errorMsg "Todo id is not valid."⟩], ops := [], store := store }
  else if storeFail then
    { sends := [⟨404, [], ResBody.empty⟩], ops := [StoreOp.opFindById id], store := store }
  else
    match store.find? (fun t => t.id == id) with
    | none =>
      { sends := [⟨404, [], ResBody.empty⟩, ⟨200, [], ResBody.todoOne none⟩],
        ops := [StoreOp.opFindById id], store := store }
    | some t =>
      { sends := [⟨200, [], ResBody.todoOne (some t)⟩],
        ops := [StoreOp.opFindById id], store := store }

/-- `app.delete('/todos/:id')` (server.js:81-104): 400 for an invalid id before
any store access; otherwise `findByIdAndRemove`, with 404 (and an early
`return`) when nothing matches, 200 with `{todo}` after removing the matched
document, and 404 from `.catch` when the store rejects. -/
def deleteTodoById (store : TodoStore) (id : String) (storeFail : Bool) : HandlerResult :=
  if !objectIdIsValid id then
    { sends := [⟨400, [], ResBody.empty⟩], ops := [], store := store }
  else if storeFail then
    { sends := [⟨404, [], ResBody.empty⟩], ops := [StoreOp.opFindByIdAndRemove id], store := store }
  else
    match store.find? (fun t => t.id == id) with
    | none =>
      { sends := [⟨404, [], ResBody.empty⟩], ops := [StoreOp.opFindByIdAndRemove id], store := store }
    | some t =>
      { sends := [⟨200, [], ResBody.todoOne (some t)⟩],
        ops := [StoreOp.opFindByIdAndRemove id],
        store := store.eraseP (fun x => x.id == id) }

/-- The update document the PATCH handler builds (server.js:108-119): pick
`text` and `completed` from the body; when `completed` is boolean `true` set
`completedAt` to the current time, otherwise force `completed` to `false` and
`completedAt` to null. -/
structure UpdateDoc where
  text : Option JVal
  completed : JVal
  completedAt : JVal
  deriving Repr, DecidableEq

def buildPatchDoc (reqBody : JObj) (now : Int) : UpdateDoc :=
  let body := lodashPick reqBody ["text", "completed"]
  match jlookup body "completed" with
  | some (JVal.jbool true) =>
    { text := jlookup body "text", completed := JVal.jbool true, completedAt := JVal.jnum now }
  | _ =>
    { text := jlookup body "text", completed := JVal.jbool false, completedAt := JVal.jnull }

/-- Modelled from the spec: applying the `$set` update document to a stored
todo (`models/todo.js` and the store's update semantics are not in `src/`).
Per the spec the update is a full replace of `text`/`completed` with the
server-derived `completedAt`; a `text` field is applied when a string was
supplied. -/
def applySet (t : Todo) (d : UpdateDoc) : Todo :=
  { t with
    text := match d.text with
            | some (JVal.jstr s) => s
            | _ => t.text
    completed := d.completed == JVal.jbool true
    completedAt := match d.completedAt with
                   | JVal.jnum n => some n
                   | _ => none }

/-- `app.patch('/todos/:id')` (server.js:106-140): sends 400 for an invalid id
but, lacking a `return`, still continues, builds the update document and issues
`findByIdAndUpdate` to the store; the invalid id then fails to cast, reaching
the `.catch` branch, which sends 400 again.  For a valid id: 404 (without
`return`, falling through to a second `{todo: null}` send) when nothing
matches, otherwise 200 with the updated document; a rejected store promise
also reaches `.catch` (400). -/
def patchTodoById (store : TodoStore) (id : String) (reqBody : JObj) (now : Int)
    (storeFail : Bool) : HandlerResult :=
  let sends0 : List Response :=
    if !objectIdIsValid id then [⟨400, [], ResBody.empty⟩] else []
  let d := buildPatchDoc reqBody now
  let ops := [StoreOp.opFindByIdAndUpdate id]
  if !objectIdIsValid id || storeFail then
    { sends := sends0 ++ [⟨400, [], ResBody.empty⟩], ops := ops, store := store }
  else
    match store.find? (fun t => t.id == id) with
    | none =>
      { sends := sends0 ++ [⟨404, [], ResBody.empty⟩, ⟨200, [], ResBody.todoOne none⟩],
        ops := ops, store := store }
    | some t =>
      let t2 := applySet t d
      { sends := sends0 ++ [⟨200, [], ResBody.todoOne (some t2)⟩],
        ops := ops,
        store := store.map (fun x => if x.id == id then applySet x d else x) }

/-- A stored user document.  Modelled from the spec (`models/user.js` is not
in `src/`): id, unique email, the password held only as an irreversible hash,
and the ordered list of issued `{access, token}` session credentials. -/
structure UserRec where
  id : String
  email : String
  passwordHash : String
  tokens : List (String × String)
  deriving Repr, DecidableEq

/-- The user collection held by the document store. -/
abbrev UserStore := List UserRec

/-- Modelled from the spec: the salted irreversible password hash, an external
primitive specified only at its boundary; represented by an injective tagging
function. -/
def hashPassword (p : String) : String := "bcrypt$" ++ p

/-- Modelled from the spec: the opaque signed token encoding the user id and
the `auth` access scope, an external signing primitive specified only at its
boundary; represented by an injective tagging function. -/
def signToken (uid : String) : String := "signed.auth." ++ uid

/-- Modelled from the spec: signature verification recovering the embedded
user id from a token, failing on any string the signer did not produce. -/
def verifyToken (t : String) : Option String :=
  if t.data.take 12 == "signed.auth.".data then some ⟨t.data.drop 12⟩ else none

/-- Modelled from the spec: the basic email pattern check of the user schema. -/
def validEmail (e : String) : Bool :=
  e.data.contains '@' && !(e.data.head? == some '@') && !(e.data.getLast? == some '@')

/-- Modelled from the spec: `signup(email, password)` of the user repository
(`models/user.js` is not in `src/`).  Fails with a ValidationError when the
email is malformed or the password shorter than the minimum length, with
DuplicateEmail when the email is registered already; on success stores the
hash of the password, issues a fresh `auth` token, appends it to the user's
token list and returns user and token. -/
def signupModel (store : UserStore) (email password : Option JVal) (newId : String) :
    Except String (UserRec × String × UserStore) :=
  match email, password with
  | some (JVal.jstr e), some (JVal.jstr p) =>
    if !validEmail e then .error "User validation failed: email is invalid"
    else if p.length < 6 then .error "User validation failed: password is too short"
    else if store.any (fun u => u.email == e) then .error "duplicate key error: email"
    else
      let tok := signToken newId
      let u : UserRec := ⟨newId, e, hashPassword p, [("auth", tok)]⟩
      .ok (u, tok, store ++ [u])
  | _, _ => .error "User validation failed: email and password are required"

/-- Replace the stored document with id `uid` by `u2`. -/
def replaceUser (store : UserStore) (uid : String) (u2 : UserRec) : UserStore :=
  store.map (fun u => if u.id == uid then u2 else u)

/-- Modelled from the spec: `findByCredentials(email, password)` followed by
`generateAuthToken()` as the login flow uses them.  The lookup is
case-normalized on the email and exact on the password hash; it fails with
InvalidCredentials when no user matches; on success a fresh token is issued
and appended. -/
def loginModel (store : UserStore) (email password : Option JVal) :
    Except String (UserRec × String × UserStore) :=
  match email, password with
  | some (JVal.jstr e), some (JVal.jstr p) =>
    match store.find? (fun u => jsToLower u.email == jsToLower e) with
    | none => .error "InvalidCredentials"
    | some u =>
      if u.passwordHash == hashPassword p then
        let tok := signToken u.id
        let u2 : UserRec := { u with tokens := u.tokens ++ [("auth", tok)] }
        .ok (u2, tok, replaceUser store u.id u2)
      else .error "InvalidCredentials"
  | _, _ => .error "InvalidCredentials"

/-- Modelled from the spec: `findByToken(token)` — verify the signature, then
cross-check the decoded id against the stored token list of that user; any
failure means Unauthenticated (`none`). -/
def findByToken (store : UserStore) (t : String) : Option UserRec :=
  match verifyToken t with
  | none => none
  | some uid =>
    match store.find? (fun u => u.id == uid) with
    | none => none
    | some u =>
      if u.tokens.any (fun pr => pr.1 == "auth" && pr.2 == t) then some u else none

/-- The response view of a user record: the password (and token list) are not
serialized; only id and email are. -/
def toView (u : UserRec) : UserView := ⟨u.id, u.email⟩

/-- Result of running a user route handler: the sends it attempts, the store
it leaves behind, and (for the authenticated route) whether the wrapped
handler ran. -/
structure UserResult where
  sends : List Response
  store : UserStore
  invoked : Bool
  deriving Repr, DecidableEq

/-- The response committed on the wire for a user route. -/
def userEffectiveSend (r : UserResult) : Option Response :=
  r.sends.head?

/-- `app.post('/users')` (server.js:143-158): picks only `email` and `password`
from the body, builds the user and generates its auth token; on success the
token goes into the `x-auth` header and the serialized user (no password) into
the body with 200; on any failure 400. -/
def postUsers (store : UserStore) (reqBody : JObj) (newId : String) : UserResult :=
  let body := lodashPick reqBody ["email", "password"]
  match signupModel store (jlookup body "email") (jlookup body "password") newId with
  | .ok (u, tok, store2) =>
    { sends := [⟨200, [("x-auth", tok)], ResBody.userBody (toView u)⟩],
      store := store2, invoked := true }
  | .error e =>
    { sends := [⟨400, [], ResBody.errorMsg e⟩], store := store, invoked := true }

/-- `app.get('/users/me')` behind the authenticate middleware (server.js:161-163
and, modelled from the spec, `middlewares/authenticate.js` which is not in
`src/`): extract the token from the `x-auth` header, resolve it via
`findByToken`; on success attach the user and invoke the wrapped handler,
which answers 200 with the serialized user; on any failure short-circuit with
401 and an empty body, never invoking the handler. -/
def getUsersMe (store : UserStore) (xauth : Option String) : UserResult :=
  match xauth.bind (fun t => findByToken store t) with
  | none =>
    { sends := [⟨401, [], ResBody.empty⟩], store := store, invoked := false }
  | some u =>
    { sends := [⟨200, [], ResBody.userBody (toView u)⟩], store := store, invoked := true }

/-- `app.post('/users/login')` (server.js:165-178): picks only `email` and
`password`, resolves the credentials and issues a fresh token; on success the
token goes into the `x-auth` header and the serialized user into the body
(no explicit status, so Express's default 200); on any failure 400 with an
empty body. -/
def postUsersLogin (store : UserStore) (reqBody : JObj) : UserResult :=
  let body := lodashPick reqBody ["email", "password"]
  match loginModel store (jlookup body "email") (jlookup body "password") with
  | .ok (u, tok, store2) =>
    { sends := [⟨200, [("x-auth", tok)], ResBody.userBody (toView u)⟩],
      store := store2, invoked := true }
  | .error _ =>
    { sends := [⟨400, [], ResBody.empty⟩], store := store, invoked := true }

/-! ### Helper lemmas -/

theorem jlookup_nil (k : String) : jlookup [] k = none := rfl

theorem jlookup_pick_pair_fst (b : JObj) (k1 k2 : String) (h : (k2 == k1) = false) :
    jlookup (lodashPick b [k1, k2]) k1 = jlookup b k1 := by
  unfold lodashPick
  simp only [List.filterMap_cons, List.filterMap_nil]
  cases h1 : jlookup b k1 <;> cases h2 : jlookup b k2 <;>
    simp [jlookup, List.find?, h, beq_self_eq_true]

theorem jlookup_pick_pair_snd (b : JObj) (k1 k2 : String) (h : (k1 == k2) = false) :
    jlookup (lodashPick b [k1, k2]) k2 = jlookup b k2 := by
  unfold lodashPick
  simp only [List.filterMap_cons, List.filterMap_nil]
  cases h1 : jlookup b k1 <;> cases h2 : jlookup b k2 <;>
    simp [jlookup, List.find?, h, beq_self_eq_true]

/-- The update document as a function of the two picked fields alone. -/
def pickedPatchDoc (vt vc : Option JVal) (now : Int) : UpdateDoc :=
  match vc with
  | some (JVal.jbool true) =>
    { text := vt, completed := JVal.jbool true, completedAt := JVal.jnum now }
  | _ =>
    { text := vt, completed := JVal.jbool false, completedAt := JVal.jnull }

theorem buildPatchDoc_eq (b : JObj) (now : Int) :
    buildPatchDoc b now = pickedPatchDoc (jlookup b "text") (jlookup b "completed") now := by
  simp only [buildPatchDoc]
  rw [jlookup_pick_pair_fst b "text" "completed" (by decide),
      jlookup_pick_pair_snd b "text" "completed" (by decide)]
  cases jlookup b "completed" with
  | none => rfl
  | some v =>
    cases v with
    | jnull => rfl
    | jbool bb => cases bb <;> rfl
    | jnum n => rfl
    | jstr s => rfl

theorem applySet_id (t : Todo) (d : UpdateDoc) : (applySet t d).id = t.id := rfl

theorem find?_map_id_preserving (l : List Todo) (id : String) (g : Todo → Todo)
    (hg : ∀ x, (g x).id = x.id) (t : Todo)
    (h : l.find? (fun x => x.id == id) = some t) :
    (l.map (fun x => if x.id == id then g x else x)).find? (fun x => x.id == id) =
      some (g t) := by
  induction l with
  | nil => simp at h
  | cons y ys ih =>
    simp only [List.map_cons]
    by_cases hy : (y.id == id) = true
    · rw [List.find?_cons_of_pos (p := fun x : Todo => x.id == id) _ hy] at h
      cases h
      rw [if_pos hy]
      refine List.find?_cons_of_pos (p := fun x : Todo => x.id == id) _ ?_
      show ((g t).id == id) = true
      rw [hg]
      exact hy
    · rw [List.find?_cons_of_neg (p := fun x : Todo => x.id == id) _ hy] at h
      rw [if_neg hy]
      rw [List.find?_cons_of_neg (p := fun x : Todo => x.id == id) _ hy]
      exact ih h

theorem find?_eraseP_id_none (l : List Todo) (id : String)
    (hnodup : (l.map Todo.id).Nodup) :
    (l.eraseP (fun x => x.id == id)).find? (fun x => x.id == id) = none := by
  induction l with
  | nil => rfl
  | cons y ys ih =>
    simp only [List.map_cons, List.nodup_cons] at hnodup
    obtain ⟨hy_notin, hys⟩ := hnodup
    by_cases hy : (y.id == id) = true
    · rw [List.eraseP_cons_of_pos (p := fun x : Todo => x.id == id) hy]
      rw [List.find?_eq_none]
      intro u hu hpu
      apply hy_notin
      have h1 : u.id = id := eq_of_beq hpu
      have h2 : y.id = id := eq_of_beq hy
      rw [h2, ← h1]
      exact List.mem_map_of_mem Todo.id hu
    · rw [List.eraseP_cons_of_neg (p := fun x : Todo => x.id == id) hy]
      rw [List.find?_cons_of_neg (p := fun x : Todo => x.id == id) _ hy]
      exact ih hys

theorem applySet_buildPatchDoc_completed (t : Todo) (b : JObj) (now : Int) :
    (jlookup b "completed" = some (JVal.jbool true) →
      (applySet t (buildPatchDoc b now)).completed = true ∧
      (applySet t (buildPatchDoc b now)).completedAt = some now) ∧
    (jlookup b "completed" ≠ some (JVal.jbool true) →
      (applySet t (buildPatchDoc b now)).completed = false ∧
      (applySet t (buildPatchDoc b now)).completedAt = none) := by
  rw [buildPatchDoc_eq]
  cases hc : jlookup b "completed" with
  | none => exact ⟨fun h => by simp at h, fun _ => ⟨rfl, rfl⟩⟩
  | some v =>
    cases v with
    | jnull => exact ⟨fun h => by simp at h, fun _ => ⟨rfl, rfl⟩⟩
    | jbool bb =>
      cases bb with
      | false => exact ⟨fun h => by simp at h, fun _ => ⟨rfl, rfl⟩⟩
      | true => exact ⟨fun _ => ⟨rfl, rfl⟩, fun h => absurd rfl h⟩
    | jnum n => exact ⟨fun h => by simp at h, fun _ => ⟨rfl, rfl⟩⟩
    | jstr s => exact ⟨fun h => by simp at h, fun _ => ⟨rfl, rfl⟩⟩

/-! ### Claims -/

/-- C1: for every well-formed todo id that matches no stored document, the
GET /todos/:id handler fails with NotFound: the committed HTTP response has
status 404 and an empty body, carrying no todo data. -/
theorem getTodoById_notFound_404 (store : TodoStore) (id : String)
    (hvalid : objectIdIsValid id = true)
    (hnone : store.find? (fun t => t.id == id) = none) :
    effectiveSend (getTodoById store id false) = some ⟨404, [], ResBody.empty⟩ := by
  unfold getTodoById effectiveSend
  rw [hvalid]
  simp [hnone]

/-- Witness for C1: a well-formed 24-hex id against the empty store. -/
theorem getTodoById_notFound_404_witness :
    effectiveSend (getTodoById [] "5f50ca4a0000000000000000" false) =
      some ⟨404, [], ResBody.empty⟩ :=
  getTodoById_notFound_404 [] "5f50ca4a0000000000000000" rfl rfl

/-- C2: the code violates the claim.  For the malformed id `"123"` the PATCH
handler does answer 400 and the collection is unchanged, but — the 400 send
not being followed by a `return` (server.js:110-112) — the handler still
builds the update document and issues `findByIdAndUpdate` to the store, so
the update operation is issued even for a malformed id. -/
theorem patch_invalidId_still_issues_update :
    effectiveSend (patchTodoById [⟨"5f50ca4a0000000000000000", "walk", false, none⟩]
        "123" [("completed", JVal.jbool true)] 7 false) = some ⟨400, [], ResBody.empty⟩ ∧
    (patchTodoById [⟨"5f50ca4a0000000000000000", "walk", false, none⟩]
        "123" [("completed", JVal.jbool true)] 7 false).ops =
      [StoreOp.opFindByIdAndUpdate "123"] ∧
    (patchTodoById [⟨"5f50ca4a0000000000000000", "walk", false, none⟩]
        "123" [("completed", JVal.jbool true)] 7 false).store =
      [⟨"5f50ca4a0000000000000000", "walk", false, none⟩] :=
  ⟨rfl, rfl, rfl⟩

/-- C4: for every PATCH on an existing todo the server derives `completedAt`
itself: when the body's `completed` is the boolean `true` the stored todo gets
`completed = true` and `completedAt = now`; in every other case (`false`,
absent, or non-boolean) the stored todo gets `completed = false` and
`completedAt = null`.  The same updated document is returned with 200. -/
theorem patch_derives_completedAt (store : TodoStore) (id : String) (b : JObj)
    (now : Int) (t : Todo)
    (hvalid : objectIdIsValid id = true)
    (hfound : store.find? (fun x => x.id == id) = some t) :
    ∃ t2 : Todo,
      effectiveSend (patchTodoById store id b now false) =
        some ⟨200, [], ResBody.todoOne (some t2)⟩ ∧
      (patchTodoById store id b now false).store.find? (fun x => x.id == id) = some t2 ∧
      (jlookup b "completed" = some (JVal.jbool true) →
        t2.completed = true ∧ t2.completedAt = some now) ∧
      (jlookup b "completed" ≠ some (JVal.jbool true) →
        t2.completed = false ∧ t2.completedAt = none) := by
  refine ⟨applySet t (buildPatchDoc b now), ?_, ?_,
    (applySet_buildPatchDoc_completed t b now).1,
    (applySet_buildPatchDoc_completed t b now).2⟩
  · unfold patchTodoById effectiveSend
    rw [hvalid]
    simp [hfound]
  · unfold patchTodoById
    rw [hvalid]
    simp only [Bool.not_true, Bool.false_or, if_false, hfound]
    exact find?_map_id_preserving store id _ (fun x => applySet_id x _) t hfound

/-- Witness for C4: completing an existing todo at time 7. -/
theorem patch_derives_completedAt_witness :
    ∃ t2 : Todo,
      effectiveSend (patchTodoById [⟨"5f50ca4a0000000000000000", "walk", false, none⟩]
          "5f50ca4a0000000000000000" [("completed", JVal.jbool true)] 7 false) =
        some ⟨200, [], ResBody.todoOne (some t2)⟩ ∧
      (patchTodoById [⟨"5f50ca4a0000000000000000", "walk", false, none⟩]
          "5f50ca4a0000000000000000" [("completed", JVal.jbool true)] 7 false).store.find?
          (fun x => x.id == "5f50ca4a0000000000000000") = some t2 ∧
      (jlookup [("completed", JVal.jbool true)] "completed" = some (JVal.jbool true) →
        t2.completed = true ∧ t2.completedAt = some 7) ∧
      (jlookup [("completed", JVal.jbool true)] "completed" ≠ some (JVal.jbool true) →
        t2.completed = false ∧ t2.completedAt = none) :=
  patch_derives_completedAt [⟨"5f50ca4a0000000000000000", "walk", false, none⟩]
    "5f50ca4a0000000000000000" [("completed", JVal.jbool true)] 7
    ⟨"5f50ca4a0000000000000000", "walk", false, none⟩ rfl rfl

/-- C9: only the `text` and `completed` fields of a PATCH body influence the
outcome: two request bodies agreeing on those two fields produce identical
handler results (responses, issued operations and stored collection), so a
caller-supplied `completedAt` or any other extra field has no effect. -/
theorem patch_uses_only_text_completed (store : TodoStore) (id : String)
    (b1 b2 : JObj) (now : Int) (storeFail : Bool)
    (ht : jlookup b1 "text" = jlookup b2 "text")
    (hc : jlookup b1 "completed" = jlookup b2 "completed") :
    patchTodoById store id b1 now storeFail = patchTodoById store id b2 now storeFail := by
  unfold patchTodoById
  rw [buildPatchDoc_eq, buildPatchDoc_eq, ht, hc]

/-- Witness for C9: a body smuggling `completedAt` and an extra field against
one carrying only the picked fields. -/
theorem patch_uses_only_text_completed_witness :
    patchTodoById [] "5f50ca4a0000000000000000"
        [("text", JVal.jstr "a"), ("completed", JVal.jbool true),
         ("completedAt", JVal.jnum 999), ("admin", JVal.jbool true)] 7 false =
      patchTodoById [] "5f50ca4a0000000000000000"
        [("completed", JVal.jbool true), ("text", JVal.jstr "a")] 7 false :=
  patch_uses_only_text_completed [] "5f50ca4a0000000000000000" _ _ 7 false rfl rfl

/-- Whether every status in a list of sends stays in the set the handlers
actually use (no 5xx). -/
def sendsOk (l : List Response) : Bool :=
  l.all (fun r => r.status == 200 || r.status == 400 || r.status == 401 || r.status == 404)

/-- C3 counterexample: a store-level failure (rejected promise, `storeFail`)
during GET /todos/:id with a well-formed id on a non-empty store is neither
InvalidId nor NotFound nor Unauthenticated, yet the handler's `.catch` branch
(server.js:76-78) maps it to status 404, not 400 as the claim states. -/
theorem get_storeFailure_mapped_to_404 :
    effectiveSend (getTodoById [⟨"5f50ca4a0000000000000000", "walk", false, none⟩]
        "5f50ca4a0000000000000000" true) = some ⟨404, [], ResBody.empty⟩ ∧
    (404 : Nat) ≠ 400 :=
  ⟨rfl, by decide⟩

/-- C3 amended: no route handler ever commits a status outside
{200, 400, 401, 404} — in particular never a 5xx — but unclassified
store-level failures are mapped to 404 by the GET /todos/:id and
DELETE /todos/:id `.catch` branches, and to 400 by the PATCH `.catch`
branch. -/
theorem handlers_never_5xx (store : TodoStore) (ustore : UserStore) (id nid : String)
    (b : JObj) (now : Int) (f : Bool) (x : Option String) :
    sendsOk (postTodos store b nid).sends = true ∧
    sendsOk (getTodos store f).sends = true ∧
    sendsOk (getTodoById store id f).sends = true ∧
    sendsOk (deleteTodoById store id f).sends = true ∧
    sendsOk (patchTodoById store id b now f).sends = true ∧
    sendsOk (postUsers ustore b nid).sends = true ∧
    sendsOk (getUsersMe ustore x).sends = true ∧
    sendsOk (postUsersLogin ustore b).sends = true ∧
    (objectIdIsValid id = true →
      effectiveSend (getTodoById store id true) = some ⟨404, [], ResBody.empty⟩ ∧
      effectiveSend (deleteTodoById store id true) = some ⟨404, [], ResBody.empty⟩ ∧
      effectiveSend (patchTodoById store id b now true) = some ⟨400, [], ResBody.empty⟩) := by
  refine ⟨?_, ?_, ?_, ?_, ?_, ?_, ?_, ?_, ?_⟩
  · unfold postTodos
    rcases todoModelSave (textOf b) nid store with p | e
    · rfl
    · rfl
  · cases f <;> rfl
  · unfold getTodoById
    by_cases hv : objectIdIsValid id <;> simp [hv] <;> cases f <;>
      try rfl
    cases store.find? (fun t => t.id == id) <;> rfl
  · unfold deleteTodoById
    by_cases hv : objectIdIsValid id <;> simp [hv] <;> cases f <;>
      try rfl
    cases store.find? (fun t => t.id == id) <;> rfl
  · unfold patchTodoById
    by_cases hv : objectIdIsValid id <;> simp [hv] <;> cases f <;>
      try rfl
    cases store.find? (fun t => t.id == id) <;> rfl
  · simp only [postUsers]
    split <;> rfl
  · simp only [getUsersMe]
    split <;> rfl
  · simp only [postUsersLogin]
    split <;> rfl
  · intro hv
    refine ⟨?_, ?_, ?_⟩
    · unfold effectiveSend getTodoById
      rw [hv]
      rfl
    · unfold effectiveSend deleteTodoById
      rw [hv]
      rfl
    · unfold effectiveSend patchTodoById
      rw [hv]
      rfl

/-- Witness for C3 (amended part with a hypothesis): the three `.catch`
mappings at a concrete well-formed id. -/
theorem handlers_never_5xx_witness :
    effectiveSend (getTodoById [] "5f50ca4a0000000000000000" true) =
      some ⟨404, [], ResBody.empty⟩ ∧
    effectiveSend (deleteTodoById [] "5f50ca4a0000000000000000" true) =
      some ⟨404, [], ResBody.empty⟩ ∧
    effectiveSend (patchTodoById [] "5f50ca4a0000000000000000" [] 7 true) =
      some ⟨400, [], ResBody.empty⟩ :=
  (handlers_never_5xx [] [] "5f50ca4a0000000000000000" "a" [] 7 false
    none).2.2.2.2.2.2.2.2 rfl

/-- C5 counterexample: `" "` is a non-empty text string, yet POST /todos
rejects it — the schema trims before validating — with status 400 and
persists nothing, refuting the claim that every non-empty `t` is persisted
with `text == t`. -/
theorem postTodos_whitespace_text_rejected :
    effectiveSend (postTodos [] [("text", JVal.jstr " ")] "5f50ca4a0000000000000000") =
      some ⟨400, [], ResBody.errorMsg "Todo validation failed: text is required"⟩ ∧
    (postTodos [] [("text", JVal.jstr " ")] "5f50ca4a0000000000000000").store = [] :=
  ⟨rfl, rfl⟩

/-- C5 amended: when the body's text is omitted, a non-string, or blank after
trimming, POST /todos answers 400 with a validation failure and the stored
collection is unchanged; for any text whose trimmed form is non-empty, the
created todo is persisted with `text` equal to the trimmed input,
`completed = false` and `completedAt = null`, and is returned with 200. -/
theorem postTodos_create_spec (store : TodoStore) (b : JObj) (nid : String) :
    ((∀ s, textOf b = some s → (jsTrim s).data.isEmpty = true) →
      (postTodos store b nid).store = store ∧
      ∃ e, effectiveSend (postTodos store b nid) = some ⟨400, [], ResBody.errorMsg e⟩) ∧
    (∀ s, textOf b = some s → (jsTrim s).data.isEmpty = false →
      (postTodos store b nid).store = store ++ [⟨nid, jsTrim s, false, none⟩] ∧
      effectiveSend (postTodos store b nid) =
        some ⟨200, [], ResBody.todoDirect ⟨nid, jsTrim s, false, none⟩⟩) := by
  constructor
  · intro hall
    unfold postTodos todoModelSave
    cases hb : textOf b with
    | none => exact ⟨rfl, "Todo validation failed: text is required", rfl⟩
    | some s =>
      have he := hall s hb
      simp only [he, if_true]
      exact ⟨trivial, "Todo validation failed: text is required", rfl⟩
  · intro s hs hne
    unfold postTodos todoModelSave
    rw [hs]
    simp only [hne, Bool.false_eq_true, if_false]
    exact ⟨trivial, rfl⟩

/-- Witness for C5 (amended): an omitted text is rejected with the store
unchanged; `" walk the dog "` is persisted trimmed with the defaults. -/
theorem postTodos_create_spec_witness :
    ((postTodos [] [] "5f50ca4a0000000000000000").store = [] ∧
      ∃ e, effectiveSend (postTodos [] [] "5f50ca4a0000000000000000") =
        some ⟨400, [], ResBody.errorMsg e⟩) ∧
    ((postTodos [] [("text", JVal.jstr " walk the dog ")] "a").store =
        [⟨"a", "walk the dog", false, none⟩] ∧
      effectiveSend (postTodos [] [("text", JVal.jstr " walk the dog ")] "a") =
        some ⟨200, [], ResBody.todoDirect ⟨"a", "walk the dog", false, none⟩⟩) :=
  ⟨(postTodos_create_spec [] [] "5f50ca4a0000000000000000").1
      (fun _ h => Option.noConfusion h),
   (postTodos_create_spec [] [("text", JVal.jstr " walk the dog ")] "a").2
      " walk the dog " rfl rfl⟩

/-- C6: deleting an existing todo answers 200 with exactly the stored
document, whose id equals the requested id; the document is removed, so a
subsequent GET /todos/:id of the same id fails with NotFound (404, empty
body).  Ids are unique in the store (they are store-generated), hence the
`Nodup` hypothesis. -/
theorem delete_removes_document (store : TodoStore) (id : String) (t : Todo)
    (hnodup : (store.map Todo.id).Nodup)
    (hvalid : objectIdIsValid id = true)
    (hfound : store.find? (fun x => x.id == id) = some t) :
    effectiveSend (deleteTodoById store id false) =
      some ⟨200, [], ResBody.todoOne (some t)⟩ ∧
    t.id = id ∧
    effectiveSend (getTodoById (deleteTodoById store id false).store id false) =
      some ⟨404, [], ResBody.empty⟩ := by
  refine ⟨?_, ?_, ?_⟩
  · unfold deleteTodoById effectiveSend
    rw [hvalid]
    simp [hfound]
  · exact eq_of_beq (List.find?_some (p := fun x : Todo => x.id == id) hfound)
  · have hstore : (deleteTodoById store id false).store =
        store.eraseP (fun x => x.id == id) := by
      unfold deleteTodoById
      rw [hvalid]
      simp [hfound]
    rw [hstore]
    unfold getTodoById effectiveSend
    rw [hvalid]
    simp [find?_eraseP_id_none store id hnodup]

/-- Witness for C6: deleting the only stored todo. -/
theorem delete_removes_document_witness :
    effectiveSend (deleteTodoById [⟨"5f50ca4a0000000000000000", "walk", false, none⟩]
        "5f50ca4a0000000000000000" false) =
      some ⟨200, [], ResBody.todoOne
        (some ⟨"5f50ca4a0000000000000000", "walk", false, none⟩)⟩ ∧
    (⟨"5f50ca4a0000000000000000", "walk", false, none⟩ : Todo).id =
      "5f50ca4a0000000000000000" ∧
    effectiveSend (getTodoById
        (deleteTodoById [⟨"5f50ca4a0000000000000000", "walk", false, none⟩]
          "5f50ca4a0000000000000000" false).store
        "5f50ca4a0000000000000000" false) = some ⟨404, [], ResBody.empty⟩ :=
  delete_removes_document [⟨"5f50ca4a0000000000000000", "walk", false, none⟩]
    "5f50ca4a0000000000000000" ⟨"5f50ca4a0000000000000000", "walk", false, none⟩
    (by simp) rfl rfl

/-- C7: every successful POST /users (signup) and POST /users/login response
has status 200, carries the serialized user record with the password omitted
(only id and email) as the JSON body, and returns the issued auth token in
the `x-auth` response header, not in the body. -/
theorem user_routes_token_in_header (store : UserStore) (b : JObj) (nid : String) :
    (∀ u tok store2,
      signupModel store (jlookup b "email") (jlookup b "password") nid =
        Except.ok (u, tok, store2) →
      (postUsers store b nid).sends =
        [⟨200, [("x-auth", tok)], ResBody.userBody ⟨u.id, u.email⟩⟩]) ∧
    (∀ u tok store2,
      loginModel store (jlookup b "email") (jlookup b "password") =
        Except.ok (u, tok, store2) →
      (postUsersLogin store b).sends =
        [⟨200, [("x-auth", tok)], ResBody.userBody ⟨u.id, u.email⟩⟩]) := by
  constructor
  · intro u tok store2 h
    simp only [postUsers]
    rw [jlookup_pick_pair_fst b "email" "password" (by decide),
        jlookup_pick_pair_snd b "email" "password" (by decide), h]
    rfl
  · intro u tok store2 h
    simp only [postUsersLogin]
    rw [jlookup_pick_pair_fst b "email" "password" (by decide),
        jlookup_pick_pair_snd b "email" "password" (by decide), h]
    rfl

/-- Witness for C7: a concrete signup and a concrete login, both successful. -/
theorem user_routes_token_in_header_witness :
    (postUsers [] [("email", JVal.jstr "a@b.c"), ("password", JVal.jstr "secret1")]
        "u1").sends =
      [⟨200, [("x-auth", "signed.auth.u1")], ResBody.userBody ⟨"u1", "a@b.c"⟩⟩] ∧
    (postUsersLogin [⟨"u1", "a@b.c", "bcrypt$secret1", [("auth", "signed.auth.u1")]⟩]
        [("email", JVal.jstr "a@b.c"), ("password", JVal.jstr "secret1")]).sends =
      [⟨200, [("x-auth", "signed.auth.u1")], ResBody.userBody ⟨"u1", "a@b.c"⟩⟩] :=
  ⟨(user_routes_token_in_header []
      [("email", JVal.jstr "a@b.c"), ("password", JVal.jstr "secret1")] "u1").1
      ⟨"u1", "a@b.c", "bcrypt$secret1", [("auth", "signed.auth.u1")]⟩
      "signed.auth.u1"
      [⟨"u1", "a@b.c", "bcrypt$secret1", [("auth", "signed.auth.u1")]⟩] rfl,
   (user_routes_token_in_header
      [⟨"u1", "a@b.c", "bcrypt$secret1", [("auth", "signed.auth.u1")]⟩]
      [("email", JVal.jstr "a@b.c"), ("password", JVal.jstr "secret1")] "u1").2
      ⟨"u1", "a@b.c", "bcrypt$secret1",
        [("auth", "signed.auth.u1"), ("auth", "signed.auth.u1")]⟩
      "signed.auth.u1"
      [⟨"u1", "a@b.c", "bcrypt$secret1",
        [("auth", "signed.auth.u1"), ("auth", "signed.auth.u1")]⟩] rfl⟩

/-- C8: GET /users/me behind the authenticate middleware.  When the `x-auth`
header carries a token that resolves to a user via `findByToken`, the
response is 200 with that user's id and email; when the header is missing or
the token does not resolve (malformed, tampered, or revoked), the middleware
short-circuits with 401 and an empty body and the wrapped handler is never
invoked. -/
theorem usersMe_authentication (store : UserStore) (x : Option String) :
    (∀ u, x.bind (fun t => findByToken store t) = some u →
      getUsersMe store x =
        ⟨[⟨200, [], ResBody.userBody ⟨u.id, u.email⟩⟩], store, true⟩) ∧
    (x.bind (fun t => findByToken store t) = none →
      getUsersMe store x = ⟨[⟨401, [], ResBody.empty⟩], store, false⟩) := by
  constructor
  · intro u h
    unfold getUsersMe
    rw [h]
    rfl
  · intro h
    unfold getUsersMe
    rw [h]

/-- Witness for C8: the stored user's own token authenticates; a missing
header and a tampered token do not. -/
theorem usersMe_authentication_witness :
    getUsersMe [⟨"u1", "a@b.c", "bcrypt$secret1", [("auth", "signed.auth.u1")]⟩]
        (some "signed.auth.u1") =
      ⟨[⟨200, [], ResBody.userBody ⟨"u1", "a@b.c"⟩⟩],
       [⟨"u1", "a@b.c", "bcrypt$secret1", [("auth", "signed.auth.u1")]⟩], true⟩ ∧
    getUsersMe [⟨"u1", "a@b.c", "bcrypt$secret1", [("auth", "signed.auth.u1")]⟩]
        none =
      ⟨[⟨401, [], ResBody.empty⟩],
       [⟨"u1", "a@b.c", "bcrypt$secret1", [("auth", "signed.auth.u1")]⟩], false⟩ ∧
    getUsersMe [⟨"u1", "a@b.c", "bcrypt$secret1", [("auth", "signed.auth.u1")]⟩]
        (some "signed.auth.u2") =
      ⟨[⟨401, [], ResBody.empty⟩],
       [⟨"u1", "a@b.c", "bcrypt$secret1", [("auth", "signed.auth.u1")]⟩], false⟩ :=
  ⟨(usersMe_authentication
      [⟨"u1", "a@b.c", "bcrypt$secret1", [("auth", "signed.auth.u1")]⟩]
      (some "signed.auth.u1")).1
      ⟨"u1", "a@b.c", "bcrypt$secret1", [("auth", "signed.auth.u1")]⟩ rfl,
   (usersMe_authentication
      [⟨"u1", "a@b.c", "bcrypt$secret1", [("auth", "signed.auth.u1")]⟩] none).2 rfl,
   (usersMe_authentication
      [⟨"u1", "a@b.c", "bcrypt$secret1", [("auth", "signed.auth.u1")]⟩]
      (some "signed.auth.u2")).2 rfl⟩

/-- C10: only the `email` and `password` fields of a POST /users body are
taken from the caller: two request bodies agreeing on those two fields
produce identical results, so a caller-supplied `tokens` array, id, or any
other extra field in the body has no effect on the created user. -/
theorem postUsers_uses_only_email_password (store : UserStore) (b1 b2 : JObj)
    (nid : String)
    (he : jlookup b1 "email" = jlookup b2 "email")
    (hp : jlookup b1 "password" = jlookup b2 "password") :
    postUsers store b1 nid = postUsers store b2 nid := by
  simp only [postUsers]
  rw [jlookup_pick_pair_fst b1 "email" "password" (by decide),
      jlookup_pick_pair_snd b1 "email" "password" (by decide),
      jlookup_pick_pair_fst b2 "email" "password" (by decide),
      jlookup_pick_pair_snd b2 "email" "password" (by decide),
      he, hp]

/-- Witness for C10: a body smuggling a `tokens` array and an `_id` against a
clean body with the same credentials. -/
theorem postUsers_uses_only_email_password_witness :
    postUsers [] [("email", JVal.jstr "a@b.c"), ("password", JVal.jstr "secret1"),
        ("tokens", JVal.jstr "evil"), ("_id", JVal.jstr "root")] "u1" =
      postUsers [] [("password", JVal.jstr "secret1"), ("email", JVal.jstr "a@b.c")]
        "u1" :=
  postUsers_uses_only_email_password [] _ _ "u1" rfl rfl

end TodoApi
